import Mathlib

/-!
Verification of the FatSecret proxy backend (`src/fatsecret_backend.py`).

The Python module is a Flask app with one mutable token cache
(`cached_token`, `token_expiry`) and five handlers:
`get_fatsecret_token`, `search_foods`, `get_food_details`,
`recognize_food_from_image`, `lookup_barcode`.

Shallow embedding choices:
* JSON values are modelled by the inductive `Json`; JSON numbers are
  modelled as integers (the handlers only ever compare them or add them
  to timestamps).
* `datetime.now()` is a single integer timestamp (seconds) fixed for the
  duration of one request; `timedelta.seconds` on a positive timedelta of
  `t` whole seconds is `t % 86400` (whole days are discarded).
* An outbound HTTP call is an oracle value `NetResult`: either a response
  carrying `status_code`, `text`, and the result of `response.json()`
  (`Except` so that a JSON parse error carries its message), or a raised
  transport exception carrying `str(e)`.
* Python dict/`in`/`.get`/indexing/`.lower()` operations on JSON values
  are modelled by `Except String _` computations whose `error` case is a
  raised exception carrying a rendering of `str(e)`; uncaught exceptions
  escape the handler (Flask would produce an internal error page).
* Each handler returns the Flask `(jsonify(body), status)` pair, the new
  cache state, and the list of outbound calls it made, in order.
-/

/-- A JSON value, as produced by `response.json()` / `request.json`.
`null` also stands for Python `None`. Numbers are modelled as integers. -/
inductive Json where
  | null
  | bool (b : Bool)
  | num (n : Int)
  | str (s : String)
  | arr (elems : List Json)
  | obj (fields : List (String × Json))

mutual
/-- Structural equality of JSON values (Python `==` on parsed JSON, restricted
to the shapes the model covers). -/
def Json.beq : Json → Json → Bool
  | .null, .null => true
  | .bool a, .bool b => a == b
  | .num a, .num b => a == b
  | .str a, .str b => a == b
  | .arr as, .arr bs => Json.beqList as bs
  | .obj as, .obj bs => Json.beqFields as bs
  | _, _ => false
def Json.beqList : List Json → List Json → Bool
  | [], [] => true
  | a :: as, b :: bs => Json.beq a b && Json.beqList as bs
  | _, _ => false
def Json.beqFields : List (String × Json) → List (String × Json) → Bool
  | [], [] => true
  | (k, v) :: as, (l, w) :: bs => k == l && Json.beq v w && Json.beqFields as bs
  | _, _ => false
end

instance : BEq Json := ⟨Json.beq⟩

/-- First binding of key `k` in a JSON object's field list (Python dict lookup;
`request.json` objects are modelled as association lists). -/
def lookupField : List (String × Json) → String → Option Json
  | [], _ => none
  | (k, v) :: rest, key => if k == key then some v else lookupField rest key

/-- Python truthiness of a JSON value (`if not data: ...` etc.). -/
def Json.truthy : Json → Bool
  | .null => false
  | .bool b => b
  | .num n => n != 0
  | .str s => s != ""
  | .arr elems => !elems.isEmpty
  | .obj fields => !fields.isEmpty

/-- Python `isinstance(x, dict)` on a JSON value. -/
def Json.isObj : Json → Bool
  | .obj _ => true
  | _ => false

/-- Does `sub` occur at the head of the character list? -/
def charsLead : List Char → List Char → Bool
  | [], _ => true
  | _ :: _, [] => false
  | a :: as, b :: bs => a == b && charsLead as bs

/-- Does `sub` occur anywhere in the character list? -/
def charsHaveSub (sub : List Char) : List Char → Bool
  | [] => charsLead sub []
  | c :: rest => charsLead sub (c :: rest) || charsHaveSub sub rest

/-- Python substring test `sub in s` on strings. -/
def strContainsSub (s sub : String) : Bool := charsHaveSub sub.data s.data

/-- Python `key in j`. On a dict it is key membership, on a list element
membership, on a string a substring test; on the remaining JSON values
Python raises `TypeError`, modelled as the `error` case. -/
def Json.pyIn (j : Json) (key : String) : Except String Bool :=
  match j with
  | .obj fields => .ok (lookupField fields key).isSome
  | .arr elems => .ok (elems.any (fun e => e == Json.str key))
  | .str s => .ok (strContainsSub s key)
  | _ => .error "TypeError: argument of type is not iterable"

/-- Python `j[key]` subscription: `KeyError` on a dict without the key,
`TypeError` on anything that is not a dict. -/
def Json.pyGetItem (j : Json) (key : String) : Except String Json :=
  match j with
  | .obj fields =>
    match lookupField fields key with
    | some v => .ok v
    | none => .error ("KeyError: " ++ key)
  | _ => .error "TypeError: object is not subscriptable"

/-- Lookup with a default over a field list — the value of `fields.get(key, d)`
when the receiver is known to be a dict. -/
def objGet (fields : List (String × Json)) (key : String) (d : Json) : Json :=
  (lookupField fields key).getD d

/-- Python `j.get(key, d)`: the dict method; `AttributeError` when the
receiver is not a dict. -/
def Json.pyGet (j : Json) (key : String) (d : Json) : Except String Json :=
  match j with
  | .obj fields => .ok (objGet fields key d)
  | _ => .error "AttributeError: object has no attribute get"

/-- The body and status code of one Flask `(jsonify(body), status)` return
value. -/
structure HandlerResponse where
  body : Json
  status : Nat

/-- The process-wide mutable cache (`cached_token`, `token_expiry` at lines
25-26 of the source). `cached_token` holds whatever JSON value was stored
from `data['access_token']`; `token_expiry` is a timestamp in seconds.
`none` is Python `None`. -/
structure TokenState where
  cached_token : Option Json
  token_expiry : Option Int

/-- The two kinds of outbound HTTP request the module can make. -/
inductive Call where
  | tokenRefresh
  | foodApi
deriving DecidableEq

/-- Result of one handler invocation: the HTTP response produced, the cache
state afterwards, and the outbound calls made, in order. -/
structure Outcome where
  response : HandlerResponse
  state : TokenState
  calls : List Call

/-- An upstream HTTP response as the handlers observe it: `status_code`,
`text`, and the result of parsing the body (`response.json()` /
`json.loads(response.text)`); the `error` case carries the
`json.JSONDecodeError` message. -/
structure HttpResponse where
  status : Nat
  text : String
  jsonBody : Except String Json

/-- Oracle for one `requests.post(...)` call: either a response (with
`status_code`, `text`, and the result of `response.json()`), or a raised
transport exception carrying `str(e)`. -/
inductive NetResult where
  | ok (r : HttpResponse)
  | exn (e : String)

/-- `timedelta.seconds` of a timedelta of `t` whole seconds: Python
normalises to days plus a seconds component in `[0, 86400)`. -/
def tdSeconds (t : Int) : Int := t % 86400

/-- Line 35 (and the identical checks at lines 110, 201, 288, 369):
`cached_token and token_expiry and datetime.now() < token_expiry`. -/
def tokenValid (st : TokenState) (now : Int) : Bool :=
  (match st.cached_token with
   | some t => t.truthy
   | none => false)
  &&
  (match st.token_expiry with
   | some e => decide (now < e)
   | none => false)

/-- The 500 body produced by `except Exception` in `get_fatsecret_token`
(lines 78-83). -/
def exnTokenResp (e : String) : HandlerResponse :=
  ⟨Json.obj [("error", Json.str "Exception during token fetch"),
             ("details", Json.str e)], 500⟩

/-- Lines 64-72: `error_details = response.text`, then try to replace it with
the `error_description` or `error` field of the parsed body; a `ValueError`
from `response.json()` is swallowed. A `TypeError` from `in` on a
non-iterable body, or from subscripting a non-dict body, escapes to the
outer handler (the `error` case). -/
def refreshErrorDetails (r : HttpResponse) : Except String Json :=
  match r.jsonBody with
  | .error _ => .ok (Json.str r.text)
  | .ok errorJson => do
    let hasDesc ← errorJson.pyIn "error_description"
    if hasDesc then errorJson.pyGetItem "error_description"
    else do
      let hasErr ← errorJson.pyIn "error"
      if hasErr then errorJson.pyGetItem "error"
      else pure (Json.str r.text)

/-- Lines 52-83 of `get_fatsecret_token`: the refresh itself (the cache was
absent or stale). On 200 the two assignments happen in source order —
`cached_token` is written before `expires_in` is read — so a 200 body
without `expires_in` still overwrites `cached_token` before the `KeyError`
reaches `except Exception`. `timedelta(seconds=x)` accepts ints and bools
(a Python bool is an int) and raises `TypeError` otherwise. -/
def refreshToken (st : TokenState) (now : Int) (net : NetResult) : Outcome :=
  match net with
  | .exn e => ⟨exnTokenResp e, st, [Call.tokenRefresh]⟩
  | .ok r =>
    if r.status == 200 then
      match r.jsonBody with
      | .error e => ⟨exnTokenResp e, st, [Call.tokenRefresh]⟩
      | .ok data =>
        match data.pyGetItem "access_token" with
        | .error e => ⟨exnTokenResp e, st, [Call.tokenRefresh]⟩
        | .ok tok =>
          match data.pyGetItem "expires_in" with
          | .error e => ⟨exnTokenResp e, ⟨some tok, st.token_expiry⟩, [Call.tokenRefresh]⟩
          | .ok expiresIn =>
            match expiresIn with
            | .num n =>
              ⟨⟨Json.obj [("access_token", tok), ("expires_in", Json.num n)], 200⟩,
               ⟨some tok, some (now + n)⟩, [Call.tokenRefresh]⟩
            | .bool b =>
              ⟨⟨Json.obj [("access_token", tok), ("expires_in", Json.bool b)], 200⟩,
               ⟨some tok, some (now + (if b then 1 else 0))⟩, [Call.tokenRefresh]⟩
            | _ =>
              ⟨exnTokenResp "TypeError: unsupported type for timedelta seconds component",
               ⟨some tok, st.token_expiry⟩, [Call.tokenRefresh]⟩
    else
      match refreshErrorDetails r with
      | .error e => ⟨exnTokenResp e, st, [Call.tokenRefresh]⟩
      | .ok det =>
        ⟨⟨Json.obj [("error",
                     Json.str ("FatSecret token request failed: " ++ toString r.status)),
                    ("details", det)], 400⟩, st, [Call.tokenRefresh]⟩

/-- Lines 28-83: the `GET /fatsecret_token` handler. If the cached token is
truthy and unexpired it is returned with the `seconds` component of the
remaining timedelta and no outbound call is made; otherwise the token is
refreshed. (When `tokenValid` holds both options are `some`, so the `getD`
defaults are never used.) -/
def get_fatsecret_token (st : TokenState) (now : Int) (net : NetResult) : Outcome :=
  if tokenValid st now then
    ⟨⟨Json.obj [("access_token", st.cached_token.getD Json.null),
                ("expires_in", Json.num (tdSeconds (st.token_expiry.getD 0 - now)))], 200⟩,
     st, []⟩
  else refreshToken st now net

/-- Lines 110-120 (and the identical blocks at 201-211 and 288-298): ensure a
valid token, calling `get_fatsecret_token` when the cache is absent or
stale, and early-return its `(response, status)` tuple when the status is
not 200. -/
def ensureToken (st : TokenState) (now : Int) (tn : NetResult) :
    TokenState × Option HandlerResponse × List Call :=
  if tokenValid st now then (st, none, [])
  else
    let o := get_fatsecret_token st now tn
    if o.response.status != 200 then (o.state, some o.response, o.calls)
    else (o.state, none, o.calls)

/-- A bare `{'error': msg}` body with a status, as returned by the
validation branches. -/
def errResp (msg : String) (code : Nat) : HandlerResponse :=
  ⟨Json.obj [("error", Json.str msg)], code⟩

/-- The shared tail of `search_foods` (lines 139-177), `get_food_details`
(lines 227-265) and `recognize_food_from_image` (lines 306-351): POST to
the food API, pass a 200 JSON body through, map a non-200 status to
`{error, details: response.text}` with the upstream status, map a parse
failure to 500, and map a transport exception to 500. Only the exception
and parse message strings differ between the three handlers. -/
def foodApiSection (exnMsg parseMsg : String) (st1 : TokenState) (cs : List Call)
    (an : NetResult) : Outcome :=
  match an with
  | .exn e =>
    ⟨⟨Json.obj [("error", Json.str exnMsg), ("details", Json.str e)], 500⟩,
     st1, cs ++ [Call.foodApi]⟩
  | .ok r =>
    if r.status != 200 then
      ⟨⟨Json.obj [("error", Json.str ("FatSecret API returned status " ++ toString r.status)),
                  ("details", Json.str r.text)], r.status⟩,
       st1, cs ++ [Call.foodApi]⟩
    else
      match r.jsonBody with
      | .ok j => ⟨⟨j, 200⟩, st1, cs ++ [Call.foodApi]⟩
      | .error e =>
        ⟨⟨Json.obj [("error", Json.str parseMsg), ("details", Json.str e),
                    ("response", Json.str r.text)], 500⟩,
         st1, cs ++ [Call.foodApi]⟩

/-- Lines 85-177: the `POST /fatsecret_search` handler. `data` is
`request.json`. An `AttributeError` from `.get` on a truthy non-dict body
is uncaught (the `Except` error case). -/
def search_foods (data : Json) (st : TokenState) (now : Int) (tn an : NetResult) :
    Except String Outcome :=
  if !data.truthy then .ok ⟨errResp "No JSON data received" 400, st, []⟩
  else
    match data.pyGet "query" (Json.str "") with
    | .error e => .error e
    | .ok query =>
      if !query.truthy then .ok ⟨errResp "No search query provided" 400, st, []⟩
      else
        match data.pyGet "page_number" (Json.str "0") with
        | .error e => .error e
        | .ok _pn =>
          match data.pyGet "max_results" (Json.str "10") with
          | .error e => .error e
          | .ok _mr =>
            match ensureToken st now tn with
            | (st1, some r, cs) => .ok ⟨r, st1, cs⟩
            | (st1, none, cs) =>
              .ok (foodApiSection "Exception during FatSecret search request"
                    "Failed to parse FatSecret response as JSON" st1 cs an)

/-- Lines 179-265: the `POST /fatsecret_food_details` handler. -/
def get_food_details (data : Json) (st : TokenState) (now : Int) (tn an : NetResult) :
    Except String Outcome :=
  if !data.truthy then .ok ⟨errResp "No JSON data received" 400, st, []⟩
  else
    match data.pyGet "food_id" (Json.str "") with
    | .error e => .error e
    | .ok foodId =>
      if !foodId.truthy then .ok ⟨errResp "No food ID provided" 400, st, []⟩
      else
        match ensureToken st now tn with
        | (st1, some r, cs) => .ok ⟨r, st1, cs⟩
        | (st1, none, cs) =>
          .ok (foodApiSection "Exception during FatSecret food details request"
                "Failed to parse FatSecret food details response as JSON" st1 cs an)

/-- Lines 267-351: the `POST /fatsecret_image_recognition` handler.
`imageFile` is `request.files['image']` when present, modelled by its
filename (the bytes and content type do not influence any observed
behaviour). -/
def recognize_food_from_image (imageFile : Option String) (st : TokenState) (now : Int)
    (tn an : NetResult) : Outcome :=
  match imageFile with
  | none => ⟨errResp "No image file provided" 400, st, []⟩
  | some fname =>
    if fname == "" then ⟨errResp "Empty image file" 400, st, []⟩
    else
      match ensureToken st now tn with
      | (st1, some r, cs) => ⟨r, st1, cs⟩
      | (st1, none, cs) =>
        foodApiSection "Exception during FatSecret image recognition request"
          "Failed to parse FatSecret image recognition response as JSON" st1 cs an

/-- Lines 372-377: the barcode handler's re-validation of the refreshed token
response: it fails when the status is not 200, the body is falsy, or the
body lacks an `access_token` key, and then propagates the refresh status
with `details` from the body's `details` field (defaulting to
`Unknown token error`). -/
def barcodeTokenCheck (o : Outcome) : Except String (Option HandlerResponse) := do
  let tokenData := o.response.body
  let failed ←
    if o.response.status != 200 then pure true
    else if !tokenData.truthy then pure true
    else do
      let h ← tokenData.pyIn "access_token"
      pure (!h)
  if failed then do
    let det ←
      if tokenData.truthy then tokenData.pyGet "details" (Json.str "Unknown token error")
      else pure (Json.str "Unknown token error")
    pure (some ⟨Json.obj [("error", Json.str "Failed to refresh token for barcode lookup"),
                          ("details", det)], o.response.status⟩)
  else pure none

/-- Lines 369-381: the barcode handler's token block; an exception inside it
is caught at line 379 and becomes a 500. -/
def ensureTokenBarcode (st : TokenState) (now : Int) (tn : NetResult) :
    TokenState × Option HandlerResponse × List Call :=
  if tokenValid st now then (st, none, [])
  else
    let o := get_fatsecret_token st now tn
    match barcodeTokenCheck o with
    | .error e =>
      (o.state, some ⟨Json.obj [("error", Json.str "Exception refreshing token"),
                                ("details", Json.str e)], 500⟩, o.calls)
    | .ok r => (o.state, r, o.calls)

/-- Lines 413-440: the barcode handler's mapping of a parsed 200 body. The
condition at line 434 reads `error_message.lower().contains("no item found")`,
but Python `str` has no method `contains`, so whenever the error code is not
106 evaluating the condition raises `AttributeError` (so the `return ... 400`
at line 436 is unreachable); when `message` is not a string, `.lower()`
already raises. The raised exception surfaces through `except Exception`
at line 446. -/
def barcodeMapE (rd : Json) : Except String HandlerResponse := do
  let hasFid ← rd.pyIn "food_id"
  let cond1 ←
    if hasFid then do
      let f1 ← rd.pyGetItem "food_id"
      if f1.truthy then
        if f1.isObj then f1.pyIn "value"
        else pure false
      else pure false
    else pure false
  if cond1 then do
    let hasErr ← rd.pyIn "error"
    if hasErr then do
      let err ← rd.pyGetItem "error"
      let msg ← err.pyGetItem "message"
      pure ⟨Json.obj [("error", Json.str "Food not found for this barcode"),
                      ("details", msg)], 404⟩
    else do
      let foodIdData ← rd.pyGet "food_id" Json.null
      let ok2 ←
        if foodIdData.truthy then
          if foodIdData.isObj then foodIdData.pyIn "value"
          else pure false
        else pure false
      if ok2 then do
        let v ← foodIdData.pyGetItem "value"
        pure ⟨Json.obj [("food_id", v),
                        ("food_name", Json.str "Food Item (Details will be fetched)")], 200⟩
      else
        pure ⟨Json.obj [("error", Json.str "Barcode found, but food_id format unexpected"),
                        ("details", rd)], 500⟩
  else do
    let hasErr ← rd.pyIn "error"
    if hasErr then do
      let err ← rd.pyGetItem "error"
      let code ← err.pyGet "code" (Json.str "Unknown")
      let msg ← err.pyGet "message" (Json.str "Food not found for this barcode or API error.")
      if code == Json.num 106 then
        pure ⟨Json.obj [("error", Json.str "Food not found for this barcode")], 404⟩
      else
        match msg with
        | Json.str _ => throw "AttributeError: str object has no attribute contains"
        | _ => throw "AttributeError: object has no attribute lower"
    else
      pure ⟨Json.obj [("error", Json.str "Food not found or unexpected API response.")], 404⟩

/-- Lines 394-447: the barcode handler's upstream call and response mapping,
including the three `except` clauses. -/
def barcodeApiSection (st1 : TokenState) (cs : List Call) (an : NetResult) : Outcome :=
  match an with
  | .exn e =>
    ⟨⟨Json.obj [("error", Json.str "Exception during FatSecret barcode lookup"),
                ("details", Json.str e)], 500⟩, st1, cs ++ [Call.foodApi]⟩
  | .ok r =>
    if r.status != 200 then
      ⟨⟨Json.obj [("error",
                   Json.str ("FatSecret API (barcode) returned status " ++ toString r.status)),
                  ("details", Json.str r.text)], r.status⟩, st1, cs ++ [Call.foodApi]⟩
    else
      match r.jsonBody with
      | .error e =>
        ⟨⟨Json.obj [("error", Json.str "Failed to parse FatSecret barcode lookup response"),
                    ("details", Json.str e), ("response", Json.str r.text)], 500⟩,
         st1, cs ++ [Call.foodApi]⟩
      | .ok rd =>
        match barcodeMapE rd with
        | .ok resp => ⟨resp, st1, cs ++ [Call.foodApi]⟩
        | .error e =>
          ⟨⟨Json.obj [("error", Json.str "Unexpected exception during barcode lookup"),
                      ("details", Json.str e)], 500⟩, st1, cs ++ [Call.foodApi]⟩

/-- Lines 353-447: the `POST /fatsecret_barcode_lookup` handler. -/
def lookup_barcode (data : Json) (st : TokenState) (now : Int) (tn an : NetResult) :
    Except String Outcome :=
  if !data.truthy then .ok ⟨errResp "No JSON data received" 400, st, []⟩
  else
    match data.pyGet "barcode" (Json.str "") with
    | .error e => .error e
    | .ok barcode =>
      if !barcode.truthy then .ok ⟨errResp "No barcode provided" 400, st, []⟩
      else
        match ensureTokenBarcode st now tn with
        | (st1, some r, cs) => .ok ⟨r, st1, cs⟩
        | (st1, none, cs) => .ok (barcodeApiSection st1 cs an)

/-! ## Helper lemmas -/

theorem obj_truthy_of_ne_nil {fs : List (String × Json)} (h : fs ≠ []) :
    (Json.obj fs).truthy = true := by
  cases fs with
  | nil => exact absurd rfl h
  | cons f rest => rfl

theorem obj_truthy_of_lookup {fs : List (String × Json)} {k : String} {v : Json}
    (h : lookupField fs k = some v) : (Json.obj fs).truthy = true := by
  cases fs with
  | nil => simp [lookupField] at h
  | cons f rest => rfl

theorem refreshToken_ok (st : TokenState) (now : Int) (txt : String) (d tok : Json) (n : Int)
    (htok : d.pyGetItem "access_token" = .ok tok)
    (hexp : d.pyGetItem "expires_in" = .ok (Json.num n)) :
    refreshToken st now (NetResult.ok ⟨200, txt, .ok d⟩)
      = ⟨⟨Json.obj [("access_token", tok), ("expires_in", Json.num n)], 200⟩,
         ⟨some tok, some (now + n)⟩, [Call.tokenRefresh]⟩ := by
  simp [refreshToken, htok, hexp]

theorem get_token_refresh (st : TokenState) (now : Int) (net : NetResult)
    (hinv : tokenValid st now = false) :
    get_fatsecret_token st now net = refreshToken st now net := by
  simp [get_fatsecret_token, hinv]

theorem ensureToken_ok (st : TokenState) (now : Int) (txt : String) (d tok : Json) (n : Int)
    (hinv : tokenValid st now = false)
    (htok : d.pyGetItem "access_token" = .ok tok)
    (hexp : d.pyGetItem "expires_in" = .ok (Json.num n)) :
    ensureToken st now (NetResult.ok ⟨200, txt, .ok d⟩)
      = (⟨some tok, some (now + n)⟩, none, [Call.tokenRefresh]) := by
  simp [ensureToken, hinv, get_token_refresh,
        refreshToken_ok st now txt d tok n htok hexp]

theorem ensureTokenBarcode_ok (st : TokenState) (now : Int) (txt : String) (d tok : Json)
    (n : Int)
    (hinv : tokenValid st now = false)
    (htok : d.pyGetItem "access_token" = .ok tok)
    (hexp : d.pyGetItem "expires_in" = .ok (Json.num n)) :
    ensureTokenBarcode st now (NetResult.ok ⟨200, txt, .ok d⟩)
      = (⟨some tok, some (now + n)⟩, none, [Call.tokenRefresh]) := by
  simp [ensureTokenBarcode, hinv, get_token_refresh,
        refreshToken_ok st now txt d tok n htok hexp,
        barcodeTokenCheck, Json.truthy, Json.pyIn, lookupField,
        bind, Except.bind, pure, Except.pure]

theorem foodApiSection_frame (m p : String) (st1 : TokenState) (cs : List Call)
    (an : NetResult) :
    (foodApiSection m p st1 cs an).state = st1
    ∧ (foodApiSection m p st1 cs an).calls = cs ++ [Call.foodApi] := by
  cases an with
  | exn e => simp [foodApiSection]
  | ok r =>
    simp only [foodApiSection]
    by_cases h : r.status = 200
    · simp [h]
      cases r.jsonBody <;> simp
    · simp [h]

theorem barcodeApiSection_frame (st1 : TokenState) (cs : List Call) (an : NetResult) :
    (barcodeApiSection st1 cs an).state = st1
    ∧ (barcodeApiSection st1 cs an).calls = cs ++ [Call.foodApi] := by
  cases an with
  | exn e => simp [barcodeApiSection]
  | ok r =>
    simp only [barcodeApiSection]
    by_cases h : r.status = 200
    · simp [h]
      cases r.jsonBody with
      | error e => simp
      | ok rd => cases hmap : barcodeMapE rd <;> simp [hmap]
    · simp [h]

/-! ## Claims -/

/-- C1: For every handler invocation where the cached token is absent or its
expiry is not in the future, exactly one token refresh occurs before the
upstream call, and on an HTTP 200 token response the cache is overwritten
with the parsed `access_token` and an expiry equal to the current time plus
the parsed `expires_in`. Stated for all four proxy handlers on a request
that passes input validation: the outbound calls are exactly
`[tokenRefresh, foodApi]` (one refresh, before the food-API call) and the
final cache is `⟨some tok, some (now + n)⟩`. -/
theorem C1_single_refresh_then_upstream
    (st : TokenState) (now : Int) (txt : String) (d tok : Json) (n : Int)
    (fsS fsD fsB : List (String × Json)) (fname : String) (an : NetResult)
    (hinv : tokenValid st now = false)
    (htok : d.pyGetItem "access_token" = .ok tok)
    (hexp : d.pyGetItem "expires_in" = .ok (Json.num n))
    (hqS : (objGet fsS "query" (Json.str "")).truthy = true) (hS : fsS ≠ [])
    (hqD : (objGet fsD "food_id" (Json.str "")).truthy = true) (hD : fsD ≠ [])
    (hqB : (objGet fsB "barcode" (Json.str "")).truthy = true) (hB : fsB ≠ [])
    (hf : fname ≠ "") :
    (search_foods (Json.obj fsS) st now (NetResult.ok ⟨200, txt, .ok d⟩) an).map Outcome.state
        = .ok ⟨some tok, some (now + n)⟩
    ∧ (search_foods (Json.obj fsS) st now (NetResult.ok ⟨200, txt, .ok d⟩) an).map Outcome.calls
        = .ok [Call.tokenRefresh, Call.foodApi]
    ∧ (get_food_details (Json.obj fsD) st now (NetResult.ok ⟨200, txt, .ok d⟩) an).map Outcome.state
        = .ok ⟨some tok, some (now + n)⟩
    ∧ (get_food_details (Json.obj fsD) st now (NetResult.ok ⟨200, txt, .ok d⟩) an).map Outcome.calls
        = .ok [Call.tokenRefresh, Call.foodApi]
    ∧ (recognize_food_from_image (some fname) st now (NetResult.ok ⟨200, txt, .ok d⟩) an).state
        = ⟨some tok, some (now + n)⟩
    ∧ (recognize_food_from_image (some fname) st now (NetResult.ok ⟨200, txt, .ok d⟩) an).calls
        = [Call.tokenRefresh, Call.foodApi]
    ∧ (lookup_barcode (Json.obj fsB) st now (NetResult.ok ⟨200, txt, .ok d⟩) an).map Outcome.state
        = .ok ⟨some tok, some (now + n)⟩
    ∧ (lookup_barcode (Json.obj fsB) st now (NetResult.ok ⟨200, txt, .ok d⟩) an).map Outcome.calls
        = .ok [Call.tokenRefresh, Call.foodApi] := by
  have hens := ensureToken_ok st now txt d tok n hinv htok hexp
  have hensB := ensureTokenBarcode_ok st now txt d tok n hinv htok hexp
  have hfr := foodApiSection_frame "Exception during FatSecret search request"
    "Failed to parse FatSecret response as JSON" ⟨some tok, some (now + n)⟩ [Call.tokenRefresh] an
  have hfrD := foodApiSection_frame "Exception during FatSecret food details request"
    "Failed to parse FatSecret food details response as JSON"
    ⟨some tok, some (now + n)⟩ [Call.tokenRefresh] an
  have hfrI := foodApiSection_frame "Exception during FatSecret image recognition request"
    "Failed to parse FatSecret image recognition response as JSON"
    ⟨some tok, some (now + n)⟩ [Call.tokenRefresh] an
  have hfrB := barcodeApiSection_frame ⟨some tok, some (now + n)⟩ [Call.tokenRefresh] an
  refine ⟨?_, ?_, ?_, ?_, ?_, ?_, ?_, ?_⟩ <;>
    simp [search_foods, get_food_details, recognize_food_from_image, lookup_barcode,
          obj_truthy_of_ne_nil hS, obj_truthy_of_ne_nil hD, obj_truthy_of_ne_nil hB,
          Json.pyGet, hqS, hqD, hqB, hf, hens, hensB,
          hfr.1, hfr.2, hfrD.1, hfrD.2, hfrI.1, hfrI.2, hfrB.1, hfrB.2,
          Except.map]

/-- Witness for C1: with an empty cache at time 0 and an upstream token
response `{"access_token": "T", "expires_in": 3600}`, a search for
`{"query": "apple"}` leaves the cache holding token `T` expiring at 3600 and
makes exactly the calls `[tokenRefresh, foodApi]`. -/
theorem C1_witness :
    (search_foods (Json.obj [("query", Json.str "apple")]) ⟨none, none⟩ 0
        (NetResult.ok ⟨200, "tokenbody",
          .ok (Json.obj [("access_token", Json.str "T"), ("expires_in", Json.num 3600)])⟩)
        (NetResult.exn "net down")).map Outcome.calls
      = .ok [Call.tokenRefresh, Call.foodApi] :=
  (C1_single_refresh_then_upstream ⟨none, none⟩ 0 "tokenbody"
      (Json.obj [("access_token", Json.str "T"), ("expires_in", Json.num 3600)])
      (Json.str "T") 3600
      [("query", Json.str "apple")] [("food_id", Json.str "1")] [("barcode", Json.str "1")]
      "f.jpg" (NetResult.exn "net down")
      rfl rfl rfl rfl (by simp) rfl (by simp) rfl (by simp) (by decide)).2.1

/-- C2 counterexample: with the cached token `"tokenA"` and expiry 86401
seconds in the future, `GET /fatsecret_token` responds with
`expires_in = 1`, not the remaining 86401 seconds — line 38 uses the
`seconds` component of the timedelta, which discards whole days. -/
theorem C2_counterexample :
    (get_fatsecret_token ⟨some (Json.str "tokenA"), some 86401⟩ 0 (NetResult.exn "unused")).response
      = ⟨Json.obj [("access_token", Json.str "tokenA"), ("expires_in", Json.num 1)], 200⟩
    ∧ (1 : Int) ≠ 86401 - 0 := by
  constructor
  · rfl
  · decide

/-- C2 (amended): for every request to `GET /fatsecret_token` made while a
cached (truthy) token exists and the current time is strictly before its
expiry, the handler returns 200 with that exact cached token and the
remaining seconds until expiry reduced modulo 86400 (the `seconds`
component of the timedelta, whole days discarded), performs no network
call, and leaves the cached token and expiry unchanged. -/
theorem C2_cached_token_reused (tok : Json) (expiry now : Int) (net : NetResult)
    (htr : tok.truthy = true) (hlt : now < expiry) :
    get_fatsecret_token ⟨some tok, some expiry⟩ now net
      = ⟨⟨Json.obj [("access_token", tok),
                    ("expires_in", Json.num ((expiry - now) % 86400))], 200⟩,
         ⟨some tok, some expiry⟩, []⟩ := by
  simp [get_fatsecret_token, tokenValid, htr, hlt, tdSeconds]

/-- Witness for C2: a cached token `"T"` expiring at 3600, read at time 600,
is returned unchanged with 3000 remaining seconds and no outbound call. -/
theorem C2_witness :
    get_fatsecret_token ⟨some (Json.str "T"), some 3600⟩ 600 (NetResult.exn "unused")
      = ⟨⟨Json.obj [("access_token", Json.str "T"), ("expires_in", Json.num 3000)], 200⟩,
         ⟨some (Json.str "T"), some 3600⟩, []⟩ := by
  have h := C2_cached_token_reused (Json.str "T") 3600 600 (NetResult.exn "unused")
    (by decide) (by decide)
  simpa using h

/-- C3: the code, evaluated at the claimed inputs. A barcode lookup whose
upstream 200 body is `{"error": {"code": 106, "message": "No item found"}}`
does return 404; but with error code 107 and the same message, the claim
says the case-insensitive substring match on "no item found" yields 404,
while the code evaluates `error_message.lower().contains(...)` — Python
`str` has no method `contains` — so it raises `AttributeError` and returns
500 `Unexpected exception during barcode lookup`; the `return ... 400`
branch at line 436 is unreachable. -/
theorem C3_code_behavior :
    lookup_barcode (Json.obj [("barcode", Json.str "00000000")])
        ⟨some (Json.str "tok"), some 1000⟩ 0 (NetResult.exn "unused")
        (NetResult.ok ⟨200, "errbody", .ok (Json.obj [("error",
          Json.obj [("code", Json.num 106), ("message", Json.str "No item found")])])⟩)
      = .ok ⟨⟨Json.obj [("error", Json.str "Food not found for this barcode")], 404⟩,
             ⟨some (Json.str "tok"), some 1000⟩, [Call.foodApi]⟩
    ∧ lookup_barcode (Json.obj [("barcode", Json.str "00000000")])
        ⟨some (Json.str "tok"), some 1000⟩ 0 (NetResult.exn "unused")
        (NetResult.ok ⟨200, "errbody", .ok (Json.obj [("error",
          Json.obj [("code", Json.num 107), ("message", Json.str "No item found")])])⟩)
      = .ok ⟨⟨Json.obj [("error", Json.str "Unexpected exception during barcode lookup"),
                        ("details",
                         Json.str "AttributeError: str object has no attribute contains")], 500⟩,
             ⟨some (Json.str "tok"), some 1000⟩, [Call.foodApi]⟩ := by
  exact ⟨rfl, rfl⟩

/-- C4 counterexample: a search request with body `{}` does return 400, but
with the error message `No JSON data received`, which does not mention
`query` — the empty dict is falsy, so the missing-body branch at line 95
fires before the `query` check at line 101. -/
theorem C4_counterexample :
    search_foods (Json.obj []) ⟨none, none⟩ 0 (NetResult.exn "u") (NetResult.exn "u")
      = .ok ⟨⟨Json.obj [("error", Json.str "No JSON data received")], 400⟩, ⟨none, none⟩, []⟩
    ∧ strContainsSub "No JSON data received" "query" = false := by
  exact ⟨rfl, by decide⟩

/-- C4 (amended): for every `POST /fatsecret_search` whose JSON body is an
object with a missing or falsy `query` field, the handler returns 400
before any token logic or network call; with body `{}` the message is
`No JSON data received` (the empty object is treated as a missing body and
the message does not mention "query"); with a non-empty object the message
is `No search query provided`, which does mention "query". -/
theorem C4_search_validation (fs : List (String × Json)) (st : TokenState) (now : Int)
    (tn an : NetResult)
    (hq : (objGet fs "query" (Json.str "")).truthy = false) :
    search_foods (Json.obj fs) st now tn an
      = .ok ⟨⟨Json.obj [("error",
                Json.str (if fs.isEmpty then "No JSON data received"
                          else "No search query provided"))], 400⟩, st, []⟩
    ∧ strContainsSub "No search query provided" "query" = true := by
  refine ⟨?_, by decide⟩
  cases fs with
  | nil => rfl
  | cons f rest =>
    have hd : (Json.obj (f :: rest)).truthy = true := obj_truthy_of_ne_nil (by simp)
    simp [search_foods, hd, Json.pyGet, hq, errResp]

/-- Witness for C4: body `{"other": 1}` (a non-empty object without `query`)
returns 400 `No search query provided`. -/
theorem C4_witness :
    search_foods (Json.obj [("other", Json.num 1)]) ⟨none, none⟩ 0
        (NetResult.exn "u") (NetResult.exn "u")
      = .ok ⟨⟨Json.obj [("error", Json.str "No search query provided")], 400⟩, ⟨none, none⟩, []⟩
    ∧ strContainsSub "No search query provided" "query" = true := by
  have h := C4_search_validation [("other", Json.num 1)] ⟨none, none⟩ 0
    (NetResult.exn "u") (NetResult.exn "u") rfl
  simpa using h

theorem barcodeMapE_found (fs gs : List (String × Json)) (v : Json)
    (hfid : lookupField fs "food_id" = some (Json.obj gs))
    (hval : lookupField gs "value" = some v)
    (herr : lookupField fs "error" = none) :
    barcodeMapE (Json.obj fs)
      = .ok ⟨Json.obj [("food_id", v),
                       ("food_name", Json.str "Food Item (Details will be fetched)")], 200⟩ := by
  have hgs : (Json.obj gs).truthy = true := obj_truthy_of_lookup hval
  simp [barcodeMapE, Json.pyIn, Json.pyGetItem, Json.pyGet, objGet, hfid, hval, herr, hgs,
        Json.isObj, bind, Except.bind, pure, Except.pure]

/-- C5: for every `POST /fatsecret_barcode_lookup` that passes validation and
whose token step does not early-return, if the upstream call returns 200
with a JSON object containing `food_id` as an object with a `value` field
and no `error` key, the handler returns 200 with exactly
`{food_id: value, food_name: "Food Item (Details will be fetched)"}`. -/
theorem C5_barcode_found
    (dfs fs gs : List (String × Json)) (v : Json) (st st1 : TokenState) (now : Int)
    (tn : NetResult) (cs : List Call) (txt : String)
    (hbc : (objGet dfs "barcode" (Json.str "")).truthy = true)
    (hd : dfs ≠ [])
    (hens : ensureTokenBarcode st now tn = (st1, none, cs))
    (hfid : lookupField fs "food_id" = some (Json.obj gs))
    (hval : lookupField gs "value" = some v)
    (herr : lookupField fs "error" = none) :
    lookup_barcode (Json.obj dfs) st now tn (NetResult.ok ⟨200, txt, .ok (Json.obj fs)⟩)
      = .ok ⟨⟨Json.obj [("food_id", v),
                        ("food_name", Json.str "Food Item (Details will be fetched)")], 200⟩,
             st1, cs ++ [Call.foodApi]⟩ := by
  simp [lookup_barcode, obj_truthy_of_ne_nil hd, Json.pyGet, hbc, hens, barcodeApiSection,
        barcodeMapE_found fs gs v hfid hval herr]

/-- Witness for C5: with a valid cached token, barcode `"999"` and upstream
body `{"food_id": {"value": "999"}}`, the handler returns 200 with
`{"food_id": "999", "food_name": "Food Item (Details will be fetched)"}`. -/
theorem C5_witness :
    lookup_barcode (Json.obj [("barcode", Json.str "999")])
        ⟨some (Json.str "tok"), some 1000⟩ 0 (NetResult.exn "unused")
        (NetResult.ok ⟨200, "body",
          .ok (Json.obj [("food_id", Json.obj [("value", Json.str "999")])])⟩)
      = .ok ⟨⟨Json.obj [("food_id", Json.str "999"),
                        ("food_name", Json.str "Food Item (Details will be fetched)")], 200⟩,
             ⟨some (Json.str "tok"), some 1000⟩, [Call.foodApi]⟩ := by
  have h := C5_barcode_found [("barcode", Json.str "999")]
    [("food_id", Json.obj [("value", Json.str "999")])] [("value", Json.str "999")]
    (Json.str "999") ⟨some (Json.str "tok"), some 1000⟩ ⟨some (Json.str "tok"), some 1000⟩ 0
    (NetResult.exn "unused") [] "body" rfl (by simp) rfl rfl rfl rfl
  simpa using h

/-- C6: for every `POST /fatsecret_food_details` with a non-empty `food_id`
whose token step does not early-return (in particular with a valid cached
token), if the upstream call returns 200 with a parseable JSON body, the
handler returns 200 with that parsed body verbatim. -/
theorem C6_details_passthrough
    (dfs : List (String × Json)) (st st1 : TokenState) (now : Int) (tn : NetResult)
    (cs : List Call) (txt : String) (j : Json)
    (hid : (objGet dfs "food_id" (Json.str "")).truthy = true)
    (hd : dfs ≠ [])
    (hens : ensureToken st now tn = (st1, none, cs)) :
    get_food_details (Json.obj dfs) st now tn (NetResult.ok ⟨200, txt, .ok j⟩)
      = .ok ⟨⟨j, 200⟩, st1, cs ++ [Call.foodApi]⟩ := by
  simp [get_food_details, obj_truthy_of_ne_nil hd, Json.pyGet, hid, hens, foodApiSection]

/-- Witness for C6: body `{"food_id": "12345"}` with a valid token and a
mocked upstream 200 returning `{"food": {"food_id": "12345"}}` yields 200
with that exact body. -/
theorem C6_witness :
    get_food_details (Json.obj [("food_id", Json.str "12345")])
        ⟨some (Json.str "tok"), some 1000⟩ 0 (NetResult.exn "unused")
        (NetResult.ok ⟨200, "body", .ok (Json.obj [("food",
          Json.obj [("food_id", Json.str "12345")])])⟩)
      = .ok ⟨⟨Json.obj [("food", Json.obj [("food_id", Json.str "12345")])], 200⟩,
             ⟨some (Json.str "tok"), some 1000⟩, [Call.foodApi]⟩ := by
  have h := C6_details_passthrough [("food_id", Json.str "12345")]
    ⟨some (Json.str "tok"), some 1000⟩ ⟨some (Json.str "tok"), some 1000⟩ 0
    (NetResult.exn "unused") [] "body" (Json.obj [("food", Json.obj [("food_id", Json.str "12345")])])
    rfl (by simp) rfl
  simpa using h

/-- C7: for every search, food-details, or image-recognition request that
passes validation and whose token step does not early-return, if the
upstream food-API call returns a non-200 status, the handler returns a body
with an `error` field and a `details` field holding the raw upstream body
text, with HTTP status equal to the upstream status code. -/
theorem C7_upstream_error_mapped
    (dfsS dfsD : List (String × Json)) (fname : String) (st st1 : TokenState) (now : Int)
    (tn : NetResult) (cs : List Call) (r : HttpResponse)
    (hqS : (objGet dfsS "query" (Json.str "")).truthy = true) (hS : dfsS ≠ [])
    (hqD : (objGet dfsD "food_id" (Json.str "")).truthy = true) (hD : dfsD ≠ [])
    (hf : fname ≠ "")
    (hens : ensureToken st now tn = (st1, none, cs))
    (hs : r.status ≠ 200) :
    search_foods (Json.obj dfsS) st now tn (NetResult.ok r)
      = .ok ⟨⟨Json.obj [("error",
                Json.str ("FatSecret API returned status " ++ toString r.status)),
               ("details", Json.str r.text)], r.status⟩, st1, cs ++ [Call.foodApi]⟩
    ∧ get_food_details (Json.obj dfsD) st now tn (NetResult.ok r)
      = .ok ⟨⟨Json.obj [("error",
                Json.str ("FatSecret API returned status " ++ toString r.status)),
               ("details", Json.str r.text)], r.status⟩, st1, cs ++ [Call.foodApi]⟩
    ∧ recognize_food_from_image (some fname) st now tn (NetResult.ok r)
      = ⟨⟨Json.obj [("error",
             Json.str ("FatSecret API returned status " ++ toString r.status)),
            ("details", Json.str r.text)], r.status⟩, st1, cs ++ [Call.foodApi]⟩ := by
  refine ⟨?_, ?_, ?_⟩ <;>
  simp [search_foods, get_food_details, recognize_food_from_image,
        obj_truthy_of_ne_nil hS, obj_truthy_of_ne_nil hD, Json.pyGet, hqS, hqD, hf, hens,
        foodApiSection, hs]

/-- Witness for C7: a search for `{"query": "apple"}` with a valid cached
token and an upstream 403 response with body text `denied` returns status
403 with `{error: "FatSecret API returned status 403", details: "denied"}`. -/
theorem C7_witness :
    search_foods (Json.obj [("query", Json.str "apple")])
        ⟨some (Json.str "tok"), some 1000⟩ 0 (NetResult.exn "unused")
        (NetResult.ok ⟨403, "denied", .error "not json"⟩)
      = .ok ⟨⟨Json.obj [("error", Json.str "FatSecret API returned status 403"),
                        ("details", Json.str "denied")], 403⟩,
             ⟨some (Json.str "tok"), some 1000⟩, [Call.foodApi]⟩ := by
  have h := (C7_upstream_error_mapped [("query", Json.str "apple")]
    [("food_id", Json.str "1")] "f.jpg" ⟨some (Json.str "tok"), some 1000⟩
    ⟨some (Json.str "tok"), some 1000⟩ 0 (NetResult.exn "unused") []
    ⟨403, "denied", .error "not json"⟩ rfl (by simp) rfl (by simp) (by decide) rfl
    (by decide)).1
  simpa using h

/-- C8: for every `GET /fatsecret_token` request (with the cache absent or
stale) in which the upstream token endpoint responds with a non-200 status,
the handler returns HTTP 400 with an error string carrying the upstream
status code and details taken from the JSON body's `error_description`
field, else its `error` field, else the raw body text. -/
theorem C8_token_endpoint_error (st : TokenState) (now : Int) (r : HttpResponse)
    (hinv : tokenValid st now = false) (hs : r.status ≠ 200) :
    (∀ fs dsc, r.jsonBody = .ok (Json.obj fs) →
        lookupField fs "error_description" = some dsc →
        get_fatsecret_token st now (NetResult.ok r)
          = ⟨⟨Json.obj [("error",
                Json.str ("FatSecret token request failed: " ++ toString r.status)),
               ("details", dsc)], 400⟩, st, [Call.tokenRefresh]⟩)
    ∧ (∀ fs dsc, r.jsonBody = .ok (Json.obj fs) →
        lookupField fs "error_description" = none → lookupField fs "error" = some dsc →
        get_fatsecret_token st now (NetResult.ok r)
          = ⟨⟨Json.obj [("error",
                Json.str ("FatSecret token request failed: " ++ toString r.status)),
               ("details", dsc)], 400⟩, st, [Call.tokenRefresh]⟩)
    ∧ (∀ fs, r.jsonBody = .ok (Json.obj fs) →
        lookupField fs "error_description" = none → lookupField fs "error" = none →
        get_fatsecret_token st now (NetResult.ok r)
          = ⟨⟨Json.obj [("error",
                Json.str ("FatSecret token request failed: " ++ toString r.status)),
               ("details", Json.str r.text)], 400⟩, st, [Call.tokenRefresh]⟩)
    ∧ (∀ e, r.jsonBody = .error e →
        get_fatsecret_token st now (NetResult.ok r)
          = ⟨⟨Json.obj [("error",
                Json.str ("FatSecret token request failed: " ++ toString r.status)),
               ("details", Json.str r.text)], 400⟩, st, [Call.tokenRefresh]⟩) := by
  rw [get_token_refresh st now _ hinv]
  refine ⟨?_, ?_, ?_, ?_⟩
  · intro fs dsc hj hdsc
    simp [refreshToken, hs, refreshErrorDetails, hj, Json.pyIn, Json.pyGetItem, hdsc,
          bind, Except.bind]
  · intro fs dsc hj hdsc herr
    simp [refreshToken, hs, refreshErrorDetails, hj, Json.pyIn, Json.pyGetItem, hdsc, herr,
          bind, Except.bind, pure, Except.pure]
  · intro fs hj hdsc herr
    simp [refreshToken, hs, refreshErrorDetails, hj, Json.pyIn, Json.pyGetItem, hdsc, herr,
          bind, Except.bind, pure, Except.pure]
  · intro e hj
    simp [refreshToken, hs, refreshErrorDetails, hj]

/-- Witness for C8: an empty cache and an upstream 401 whose body is
`{"error_description": "bad creds"}` produce a 400 response whose error
names status 401 and whose details are `bad creds`. -/
theorem C8_witness :
    get_fatsecret_token ⟨none, none⟩ 0
        (NetResult.ok ⟨401, "rawtext",
          .ok (Json.obj [("error_description", Json.str "bad creds")])⟩)
      = ⟨⟨Json.obj [("error", Json.str "FatSecret token request failed: 401"),
                    ("details", Json.str "bad creds")], 400⟩,
         ⟨none, none⟩, [Call.tokenRefresh]⟩ := by
  have h := (C8_token_endpoint_error ⟨none, none⟩ 0
    ⟨401, "rawtext", .ok (Json.obj [("error_description", Json.str "bad creds")])⟩
    rfl (by decide)).1 [("error_description", Json.str "bad creds")]
    (Json.str "bad creds") rfl rfl
  simpa using h

/-- C9: whenever a token fetch fails — the upstream token endpoint returns a
non-200 status or the request raises a transport exception — the cached
token and its expiry are exactly as before the call; conversely, the cache
changes only when the refresh response was an HTTP 200. -/
theorem C9_cache_unchanged_on_failure (st : TokenState) (now : Int) :
    (∀ e, (get_fatsecret_token st now (NetResult.exn e)).state = st)
    ∧ (∀ r : HttpResponse, r.status ≠ 200 →
        (get_fatsecret_token st now (NetResult.ok r)).state = st)
    ∧ (∀ net, (get_fatsecret_token st now net).state ≠ st →
        ∃ r, net = NetResult.ok r ∧ r.status = 200) := by
  by_cases hv : tokenValid st now
  · refine ⟨fun e => by simp [get_fatsecret_token, hv], fun r _ => by simp [get_fatsecret_token, hv], ?_⟩
    intro net hne
    exact absurd (by simp [get_fatsecret_token, hv]) hne
  · have hv' : tokenValid st now = false := by simpa using hv
    refine ⟨fun e => by simp [get_token_refresh st now _ hv', refreshToken], ?_, ?_⟩
    · intro r hr
      rw [get_token_refresh st now _ hv']
      simp only [refreshToken, hr]
      simp [hr]
      cases h : refreshErrorDetails r <;> simp [exnTokenResp]
    · intro net hne
      cases net with
      | exn e =>
        exact absurd (by simp [get_token_refresh st now _ hv', refreshToken]) hne
      | ok r =>
        by_cases hr : r.status = 200
        · exact ⟨r, rfl, hr⟩
        · rw [get_token_refresh st now _ hv'] at hne
          refine absurd ?_ hne
          simp only [refreshToken]
          simp [hr]
          cases h : refreshErrorDetails r <;> simp [exnTokenResp]

/-- Witness for C9: a transport exception with an empty cache leaves the
cache empty. -/
theorem C9_witness :
    (get_fatsecret_token ⟨none, none⟩ 0 (NetResult.ok ⟨500, "oops", .error "parse"⟩)).state
      = ⟨none, none⟩ :=
  (C9_cache_unchanged_on_failure ⟨none, none⟩ 0).2.1 ⟨500, "oops", .error "parse"⟩ (by decide)

/-- C10: every handler request that fails input validation — a falsy JSON
body, an object body with missing/falsy `query`, `food_id` or `barcode`, or
a missing image file or empty filename — returns 400 before the token logic
runs: the cache is unchanged and no outbound call of any kind is made, for
any cache state and any would-be network behaviour. -/
theorem C10_validation_before_token (st : TokenState) (now : Int) (tn an : NetResult) :
    (∀ data : Json, data.truthy = false →
        search_foods data st now tn an = .ok ⟨errResp "No JSON data received" 400, st, []⟩)
    ∧ (∀ fs, fs ≠ [] → (objGet fs "query" (Json.str "")).truthy = false →
        search_foods (Json.obj fs) st now tn an
          = .ok ⟨errResp "No search query provided" 400, st, []⟩)
    ∧ (∀ data : Json, data.truthy = false →
        get_food_details data st now tn an = .ok ⟨errResp "No JSON data received" 400, st, []⟩)
    ∧ (∀ fs, fs ≠ [] → (objGet fs "food_id" (Json.str "")).truthy = false →
        get_food_details (Json.obj fs) st now tn an
          = .ok ⟨errResp "No food ID provided" 400, st, []⟩)
    ∧ (∀ data : Json, data.truthy = false →
        lookup_barcode data st now tn an = .ok ⟨errResp "No JSON data received" 400, st, []⟩)
    ∧ (∀ fs, fs ≠ [] → (objGet fs "barcode" (Json.str "")).truthy = false →
        lookup_barcode (Json.obj fs) st now tn an
          = .ok ⟨errResp "No barcode provided" 400, st, []⟩)
    ∧ recognize_food_from_image none st now tn an = ⟨errResp "No image file provided" 400, st, []⟩
    ∧ recognize_food_from_image (some "") st now tn an = ⟨errResp "Empty image file" 400, st, []⟩ := by
  refine ⟨?_, ?_, ?_, ?_, ?_, ?_, rfl, rfl⟩
  · intro data hd; simp [search_foods, hd]
  · intro fs hfs hq
    simp [search_foods, obj_truthy_of_ne_nil hfs, Json.pyGet, hq]
  · intro data hd; simp [get_food_details, hd]
  · intro fs hfs hq
    simp [get_food_details, obj_truthy_of_ne_nil hfs, Json.pyGet, hq]
  · intro data hd; simp [lookup_barcode, hd]
  · intro fs hfs hq
    simp [lookup_barcode, obj_truthy_of_ne_nil hfs, Json.pyGet, hq]

/-- Witness for C10: a search with body `null` (no JSON data) returns 400 and
leaves a populated cache untouched with no calls. -/
theorem C10_witness :
    search_foods Json.null ⟨some (Json.str "T"), some 99⟩ 5
        (NetResult.exn "u") (NetResult.exn "u")
      = .ok ⟨errResp "No JSON data received" 400, ⟨some (Json.str "T"), some 99⟩, []⟩ :=
  (C10_validation_before_token ⟨some (Json.str "T"), some 99⟩ 5
    (NetResult.exn "u") (NetResult.exn "u")).1 Json.null rfl
